import Mathlib

/-!
# Verification of `ProductVariantCreate` (saleor GraphQL mutation)

A shallow embedding of
`src/saleor/graphql/product/mutations/product_variant/product_variant_create.py`.

Python `ValidationError`s are modelled by the `Except` monad over a list of
field-scoped error items; Django's nested `ValidationError({field: e})` form
becomes `wrap_field`.  ORM objects become plain structures carrying the fields
the mutation reads; database query sets become lists carried on those
structures.  Helpers of this repository that are not part of the provided
sources (the `product_variant_cleaner` module, `get_duplicated_values`,
`clean_variant_sku`, `get_used_variants_attribute_values`,
`AttributeAssignmentMixin`, `generate_and_set_variant_name`,
`get_track_inventory_by_default`) are modelled from the spec and say so in
their doc comments.
-/

/-- Error codes used by the mutation (`saleor.product.error_codes.ProductErrorCode`). -/
inductive ProductErrorCode where
  | ATTRIBUTE_CANNOT_BE_ASSIGNED
  | REQUIRED
  | INVALID
  | UNIQUE
  | NOT_FOUND
  | DUPLICATED_INPUT_ITEM
deriving DecidableEq

/-- One flattened entry of a Django `ValidationError`: an optional field the
error is scoped to, a message, a machine readable code, and the
`params["attributes"]` payload (empty when the error carries no params). -/
structure ErrorItem where
  field : Option String
  message : String
  code : ProductErrorCode
  params_attributes : List String
deriving DecidableEq

/-- A raised Django `ValidationError`, flattened to its list of items. -/
abbrev ValidationError := List ErrorItem

/-- `raise ValidationError({f: e})`: scope every item of `e` under field `f`. -/
def wrap_field (f : String) (e : ValidationError) : ValidationError :=
  e.map fun it => { it with field := some f }

/-- An attribute row: primary key and the `value_required` flag. -/
structure Attribute where
  pk : Nat
  value_required : Bool
deriving DecidableEq

/-- A product type row: whether it is configurable and its variant-attribute set
(`product_type.variant_attributes.all()`). -/
structure ProductType where
  has_variants : Bool
  variant_attributes : List Attribute
deriving DecidableEq

/-- The attribute-value combinations already assigned to sibling variants of a
product: for each sibling, a map from attribute pk to its value strings. -/
abbrev UsedAttributeValues := List (List (Nat × List String))

/-- A product row with the fields the mutation reads and writes.
`default_variant` holds the pk of the default variant, `none` when unset. -/
structure Product where
  pk : Nat
  product_type : ProductType
  default_variant : Option Nat
  search_index_dirty : Bool
  used_attribute_values : UsedAttributeValues
deriving DecidableEq

/-- One element of the mutation's `attributes` input list
(`AttributeValueInput`): a global attribute id and the submitted values. -/
structure AttributeValueInput where
  id : String
  values : List String
deriving DecidableEq

/-- One element of the mutation's `stocks` input list (`StockInput`). -/
structure StockInput where
  warehouse : String
  quantity : Int
deriving DecidableEq

/-- The `preorder` input (`PreorderSettingsInput`). -/
structure PreorderSettingsInput where
  global_threshold : Option Int
  end_date : Option Nat
deriving DecidableEq

/-- The mutation input (`ProductVariantCreateInput`) after the framework's
generic cleaning: the `product` global id has been resolved to a `Product` row
(`none` models a null reference), everything else is as submitted.  An absent
optional key and a key submitted as null are both `none`. -/
structure ProductVariantCreateInput where
  attributes : Option (List AttributeValueInput)
  product : Option Product
  stocks : Option (List StockInput)
  sku : Option String
  name : Option String
  track_inventory : Option Bool
  weight : Option Int
  preorder : Option PreorderSettingsInput
  quantity_limit_per_customer : Option Int
deriving DecidableEq

/-- A product variant row (`models.ProductVariant`).  `pk = none` means the
instance has no identity yet (a create call); the parent product row is
embedded.  `attribute_values` are the persisted attribute-value links. -/
structure ProductVariant where
  pk : Option Nat
  product : Product
  sku : Option String
  name : String
  track_inventory : Bool
  weight : Option Int
  quantity_limit_per_customer : Option Int
  attribute_values : List (Nat × List String)
deriving DecidableEq

/-- The cleaned attribute inputs (`T_INPUT_MAP`): resolved attribute rows
paired with their submitted values. -/
abbrev T_INPUT_MAP := List (Attribute × List String)

/-- Models `graphene.Node.to_global_id`: an injective encoding of a type name
and a primary key into an opaque global id string. -/
def Node.to_global_id (type_name : String) (pk : Nat) : String :=
  type_name ++ ":" ++ toString pk

/-- Modelled from the spec: `get_duplicated_values` (core utils, not under
`src/`) returns the set of values occurring more than once in the input
("listing the duplicated warehouse IDs"); the set is modelled as the
deduplicated sublist of duplicated values. -/
def get_duplicated_values (values : List String) : List String :=
  (values.filter fun v => decide (1 < values.count v)).dedup

/-- Modelled from the spec: `clean_variant_sku` (product utils, not under
`src/`) normalizes the SKU (trimming); an empty result is null. -/
def clean_variant_sku (sku : Option String) : Option String :=
  match sku with
  | none => none
  | some s => if s.trim = "" then none else some s.trim

/-- Modelled from the spec: `get_used_variants_attribute_values` (product
utils, not under `src/`) returns the attribute-value combinations already
assigned to the product's variants; the query is modelled by a field on the
product row. -/
def get_used_variants_attribute_values (product : Product) : UsedAttributeValues :=
  product.used_attribute_values

/-- Modelled from the spec: `AttributeAssignmentMixin.clean_input` (attribute
utils, not under `src/`) resolves each submitted attribute id against the
allowed attribute queryset and validates the values against the attribute's
declared type; with untyped string values the type validation always passes,
so the model resolves the ids and returns the pairs. -/
def AttributeAssignmentMixin.clean_input (attributes : List AttributeValueInput)
    (qs : List Attribute) : Except ValidationError T_INPUT_MAP :=
  .ok (attributes.filterMap fun a =>
    (qs.find? fun q => Node.to_global_id "Attribute" q.pk = a.id).map fun q => (q, a.values))

/-- Modelled from the spec: `validate_duplicated_attribute_values` (the
`product_variant_cleaner` module, not under `src/`) rejects a value
combination identical to one already used by a sibling variant. -/
def cleaner.validate_duplicated_attribute_values (cleaned_attributes : T_INPUT_MAP)
    (used_attribute_values : UsedAttributeValues) : Except ValidationError Unit :=
  if used_attribute_values.contains (cleaned_attributes.map fun p => (p.1.pk, p.2)) then
    .error [{ field := none, message := "Duplicated attribute values for product variant.",
              code := .DUPLICATED_INPUT_ITEM, params_attributes := [] }]
  else
    .ok ()

/-- Modelled from the spec: `clean_weight` (the `product_variant_cleaner`
module, not under `src/`): the weight must be a non-negative physical quantity
if present, failing with a field-scoped "weight" error. -/
def cleaner.clean_weight (cleaned_input : ProductVariantCreateInput) :
    Except ValidationError Unit :=
  match cleaned_input.weight with
  | none => .ok ()
  | some w =>
    if w < 0 then
      .error [{ field := some "weight", message := "Product variant can't have negative weight.",
                code := .INVALID, params_attributes := [] }]
    else
      .ok ()

/-- Modelled from the spec: `clean_quantity_limit` (the
`product_variant_cleaner` module, not under `src/`): the quantity limit per
checkout must be a positive integer if present. -/
def cleaner.clean_quantity_limit (cleaned_input : ProductVariantCreateInput) :
    Except ValidationError Unit :=
  match cleaned_input.quantity_limit_per_customer with
  | none => .ok ()
  | some q =>
    if q < 1 then
      .error [{ field := some "quantity_limit_per_customer",
                message := "Product variant can't have a quantity limit lower than 1.",
                code := .INVALID, params_attributes := [] }]
    else
      .ok ()

/-- Modelled from the spec: `clean_preorder_settings` (the
`product_variant_cleaner` module, not under `src/`): if preorder is present,
its end date (if given) must be in the future relative to call time, and its
global threshold must be non-negative if given. -/
def cleaner.clean_preorder_settings (now : Nat) (cleaned_input : ProductVariantCreateInput) :
    Except ValidationError Unit :=
  match cleaned_input.preorder with
  | none => .ok ()
  | some p =>
    match p.end_date with
    | some e =>
      if e ≤ now then
        .error [{ field := some "preorder", message := "Preorder end date must be in the future.",
                  code := .INVALID, params_attributes := [] }]
      else
        match p.global_threshold with
        | some t =>
          if t < 0 then
            .error [{ field := some "preorder",
                      message := "Preorder global threshold must be non-negative.",
                      code := .INVALID, params_attributes := [] }]
          else .ok ()
        | none => .ok ()
    | none =>
      match p.global_threshold with
      | some t =>
        if t < 0 then
          .error [{ field := some "preorder",
                    message := "Preorder global threshold must be non-negative.",
                    code := .INVALID, params_attributes := [] }]
        else .ok ()
      | none => .ok ()

/-- `ProductVariantCreate.get_product`: the resolved product reference, failing
with a field-scoped "product" INVALID error when it is null. -/
def ProductVariantCreate.get_product (cleaned_input : ProductVariantCreateInput) :
    Except ValidationError Product :=
  match cleaned_input.product with
  | none =>
    .error [{ field := some "product", message := "Product cannot be set empty.",
              code := .INVALID, params_attributes := [] }]
  | some product => .ok product

/-- The set `variant_attributes_ids` built in `clean_attributes`: the global
ids of the product type's variant attributes (a Python set, modelled as a
deduplicated list). -/
def variant_attributes_ids (product_type : ProductType) : List String :=
  (product_type.variant_attributes.map fun a => Node.to_global_id "Attribute" a.pk).dedup

/-- The set `attributes_ids` built in `clean_attributes`: the ids of the
submitted attribute inputs (`attributes or []`). -/
def attributes_ids (attributes : Option (List AttributeValueInput)) : List String :=
  ((attributes.getD []).map AttributeValueInput.id).dedup

/-- The set difference `attributes_ids - variant_attributes_ids` of
`clean_attributes`. -/
def invalid_attributes (product_type : ProductType)
    (attributes : Option (List AttributeValueInput)) : List String :=
  (attributes_ids attributes).filter fun i => decide (i ∉ variant_attributes_ids product_type)

/-- `ProductVariantCreate.clean_attributes`.  Returns the cleaned attribute map
written back into `cleaned_input["attributes"]` (`none` when the raw
attributes were left untouched, which only happens when they are falsy). -/
def ProductVariantCreate.clean_attributes (cleaned_input : ProductVariantCreateInput)
    (inst : ProductVariant) : Except ValidationError (Option T_INPUT_MAP) :=
  match ProductVariantCreate.get_product cleaned_input with
  | .error e => .error e
  | .ok product =>
    let product_type := product.product_type
    let used_attribute_values := get_used_variants_attribute_values product
    let attributes := cleaned_input.attributes
    if 0 < (invalid_attributes product_type attributes).length then
      .error [{ field := none, message := "Given attributes are not a variant attributes.",
                code := .ATTRIBUTE_CANNOT_BE_ASSIGNED,
                params_attributes := invalid_attributes product_type attributes }]
    else if product_type.has_variants then
      -- Attributes are provided as a list of `AttributeValueInput` objects;
      -- `if attributes:` is Python truthiness (non-null and non-empty).
      match attributes with
      | some (a :: rest) =>
        let attributes_qs := product_type.variant_attributes
        match AttributeAssignmentMixin.clean_input (a :: rest) attributes_qs with
        | .error e => .error (wrap_field "attributes" e)
        | .ok cleaned_attributes =>
          match cleaner.validate_duplicated_attribute_values cleaned_attributes
              used_attribute_values with
          | .error e => .error (wrap_field "attributes" e)
          | .ok _ => .ok (some cleaned_attributes)
      | _ =>
        -- if attributes were not provided on creation
        if product_type.variant_attributes.any Attribute.value_required then
          .error (wrap_field "attributes"
            [{ field := none, message := "All required attributes must take a value.",
               code := .REQUIRED, params_attributes := [] }])
        else
          .ok none
    else
      match attributes with
      | some (_ :: _) =>
        .error [{ field := none,
                  message := "Cannot assign attributes for product type without variants",
                  code := .INVALID, params_attributes := [] }]
      | _ => .ok none

/-- `ProductVariantCreate.check_for_duplicates_in_stocks`. -/
def ProductVariantCreate.check_for_duplicates_in_stocks (stocks_data : List StockInput) :
    Except ValidationError Unit :=
  let warehouse_ids := stocks_data.map StockInput.warehouse
  let duplicates := get_duplicated_values warehouse_ids
  if duplicates.isEmpty then
    .ok ()
  else
    .error [{ field := some "stocks",
              message := "Duplicated warehouse ID: " ++ String.intercalate ", " duplicates,
              code := .UNIQUE, params_attributes := [] }]

/-- The cleaned input returned by `clean_input`: the submitted fields with the
`attributes` entry replaced by the cleaned attribute map and the SKU
normalized. -/
structure CleanedInput where
  attributes : Option T_INPUT_MAP
  product : Option Product
  stocks : Option (List StockInput)
  sku : Option String
  name : Option String
  track_inventory : Option Bool
  weight : Option Int
  preorder : Option PreorderSettingsInput
  quantity_limit_per_customer : Option Int
deriving DecidableEq

/-- `ProductVariantCreate.clean_input`.  The framework's generic
`super().clean_input` (out of scope per the spec) is modelled as the identity
on the already-resolved input; `now` is the call time read ambiently by the
preorder cleaner.  Each check raises, and a raised `ValidationError`
propagates immediately, aborting the remaining checks. -/
def ProductVariantCreate.clean_input (now : Nat) (data : ProductVariantCreateInput)
    (inst : ProductVariant) : Except ValidationError CleanedInput :=
  match cleaner.clean_weight data with
  | .error e => .error e
  | .ok _ =>
    match cleaner.clean_quantity_limit data with
    | .error e => .error e
    | .ok _ =>
      -- `if stocks := cleaned_input.get("stocks"):` — Python truthiness.
      match (match data.stocks with
             | some (s :: ss) => ProductVariantCreate.check_for_duplicates_in_stocks (s :: ss)
             | _ => Except.ok ()) with
      | .error e => .error e
      | .ok _ =>
        match ProductVariantCreate.clean_attributes data inst with
        | .error e => .error e
        | .ok cleaned_attributes =>
          match cleaner.clean_preorder_settings now data with
          | .error e => .error e
          | .ok _ =>
            -- `if "sku" in cleaned_input:` — an absent key and a null value
            -- are observationally equal here since the cleaner maps null to
            -- null, so the normalization is applied unconditionally.
            .ok { attributes := cleaned_attributes, product := data.product,
                  stocks := data.stocks, sku := clean_variant_sku data.sku,
                  name := data.name, track_inventory := data.track_inventory,
                  weight := data.weight, preorder := data.preorder,
                  quantity_limit_per_customer := data.quantity_limit_per_customer }

/-- Modelled from the spec: `get_track_inventory_by_default` (shop utils, not
under `src/`) resolves the shop-level track-inventory default from the request
context; the context is modelled by the resolved value itself. -/
def get_track_inventory_by_default (shop_default : Option Bool) : Option Bool :=
  shop_default

/-- `ProductVariantCreate.set_track_inventory`: when the shop default is not
null, assign the explicit input value, falling back to the shop default when
no explicit value was given; when the shop default is null, leave the variant
untouched. -/
def ProductVariantCreate.set_track_inventory (shop_default : Option Bool)
    (inst : ProductVariant) (cleaned_input : CleanedInput) : ProductVariant :=
  let track_inventory_by_default := get_track_inventory_by_default shop_default
  let track_inventory := cleaned_input.track_inventory
  match track_inventory_by_default with
  | none => inst
  | some d => { inst with track_inventory := track_inventory.getD d }

/-- Modelled from the spec: `AttributeAssignmentMixin.save` (attribute utils,
not under `src/`) persists the attribute-value links, replacing the prior
links for each attribute key. -/
def AttributeAssignmentMixin.save (inst : ProductVariant)
    (attributes : T_INPUT_MAP) : ProductVariant :=
  { inst with
    attribute_values := attributes.foldl
      (fun acc p => (acc.filter fun q => q.1 ≠ p.1.pk) ++ [(p.1.pk, p.2)])
      inst.attribute_values }

/-- Modelled from the spec: `generate_and_set_variant_name` (product utils,
not under `src/`) derives the name deterministically from the variant's
attribute values with the SKU as fallback. -/
def generate_and_set_variant_name (inst : ProductVariant) (sku : Option String) :
    ProductVariant :=
  let from_attributes :=
    String.intercalate " / " (inst.attribute_values.map fun p => String.intercalate ", " p.2)
  { inst with name := if from_attributes = "" then sku.getD "" else from_attributes }

/-- The domain events the plugin manager can receive from `save`. -/
inductive PluginEvent where
  | product_variant_created
  | product_variant_updated
deriving DecidableEq

/-- The observable outcome of `ProductVariantCreate.save`: the saved variant
row (with its updated parent product), the stock rows created, and the domain
events emitted to the plugin manager. -/
structure SaveResult where
  variant : ProductVariant
  created_stocks : List StockInput
  events : List PluginEvent
deriving DecidableEq

/-- `ProductVariantCreate.save`.  `shop_default` is the shop-level
track-inventory default resolved from the request context and `next_pk` the
primary key the store assigns when the instance has none.
`create_variant_stocks` (resolving warehouses and creating one stock row per
entry, per the spec) is modelled by recording the created rows. -/
def ProductVariantCreate.save (shop_default : Option Bool) (next_pk : Nat)
    (inst : ProductVariant) (cleaned_input : CleanedInput) : SaveResult :=
  let new_variant := inst.pk.isNone
  let inst1 := ProductVariantCreate.set_track_inventory shop_default inst cleaned_input
  -- instance.save(): the store assigns a primary key when there is none.
  let inst2 := { inst1 with pk := some (inst1.pk.getD next_pk) }
  let inst3 :=
    if inst2.product.default_variant.isNone then
      { inst2 with product := { inst2.product with default_variant := inst2.pk } }
    else
      inst2
  let created_stocks :=
    match cleaned_input.stocks with
    | some (s :: ss) => s :: ss
    | _ => []
  let inst4 :=
    match cleaned_input.attributes with
    | some (a :: rest) => AttributeAssignmentMixin.save inst3 (a :: rest)
    | _ => inst3
  let inst5 :=
    if inst4.name = "" then generate_and_set_variant_name inst4 cleaned_input.sku else inst4
  let inst6 := { inst5 with product := { inst5.product with search_index_dirty := true } }
  let event_to_call :=
    if new_variant then PluginEvent.product_variant_created
    else PluginEvent.product_variant_updated
  { variant := inst6, created_stocks := created_stocks, events := [event_to_call] }

/-! ## Concrete fixtures used by witnesses and counterexamples -/

/-- A variant attribute with `value_required` set. -/
def sample_attribute : Attribute := { pk := 1, value_required := true }

/-- A configurable product type whose variant-attribute set is `{pk 1}`. -/
def sample_product_type : ProductType :=
  { has_variants := true, variant_attributes := [sample_attribute] }

/-- A non-configurable product type with the same variant-attribute set. -/
def sample_product_type_nonconf : ProductType :=
  { has_variants := false, variant_attributes := [sample_attribute] }

/-- A product of the configurable type with no default variant yet. -/
def sample_product : Product :=
  { pk := 10, product_type := sample_product_type, default_variant := none,
    search_index_dirty := false, used_attribute_values := [] }

/-- A product of the non-configurable type. -/
def sample_product_nonconf : Product :=
  { sample_product with product_type := sample_product_type_nonconf }

/-- A variant with no identity yet (a create call). -/
def sample_variant_new : ProductVariant :=
  { pk := none, product := sample_product, sku := none, name := "",
    track_inventory := true, weight := none, quantity_limit_per_customer := none,
    attribute_values := [] }

/-- A variant that already has an identity (an update call). -/
def sample_variant_existing : ProductVariant := { sample_variant_new with pk := some 7 }

/-- A minimal input: no attributes, the configurable product, nothing else. -/
def base_input : ProductVariantCreateInput :=
  { attributes := none, product := some sample_product, stocks := none, sku := none,
    name := none, track_inventory := none, weight := none, preorder := none,
    quantity_limit_per_customer := none }

/-- An input submitting an attribute id outside the variant-attribute set. -/
def outside_id_input : ProductVariantCreateInput :=
  { base_input with attributes := some [{ id := "Attribute:2", values := [] }] }

/-- The same offending attribute submitted against the non-configurable type. -/
def nonconf_outside_id_input : ProductVariantCreateInput :=
  { outside_id_input with product := some sample_product_nonconf }

/-- An allowed attribute submitted against the non-configurable type. -/
def nonconf_allowed_id_input : ProductVariantCreateInput :=
  { base_input with
    product := some sample_product_nonconf,
    attributes := some [{ id := "Attribute:1", values := ["red"] }] }

/-- An input with both a negative weight and duplicated stock warehouses. -/
def weight_and_stocks_input : ProductVariantCreateInput :=
  { base_input with
    weight := some (-5),
    stocks := some [{ warehouse := "W1", quantity := 5 },
                    { warehouse := "W1", quantity := 3 }] }

/-- An input with a null product reference and nothing else invalid. -/
def null_product_input : ProductVariantCreateInput := { base_input with product := none }

/-- An input with a null product reference and duplicated stock warehouses. -/
def null_product_dup_stocks_input : ProductVariantCreateInput :=
  { base_input with
    product := none,
    stocks := some [{ warehouse := "W1", quantity := 5 },
                    { warehouse := "W1", quantity := 3 }] }

/-! ## Shared lemmas -/

/-- Membership in the `invalid_attributes` set difference. -/
lemma mem_invalid_attributes (product_type : ProductType)
    (attributes : Option (List AttributeValueInput)) (x : String) :
    x ∈ invalid_attributes product_type attributes ↔
      ((∃ a ∈ attributes.getD [], a.id = x) ∧ x ∉ variant_attributes_ids product_type) := by
  simp [invalid_attributes, attributes_ids, List.mem_filter, List.mem_dedup, List.mem_map]

/-- Membership in `get_duplicated_values`: exactly the values occurring more
than once. -/
lemma mem_get_duplicated_values (values : List String) (w : String) :
    w ∈ get_duplicated_values values ↔ 1 < values.count w := by
  simp only [get_duplicated_values, List.mem_dedup, List.mem_filter, decide_eq_true_eq]
  exact ⟨fun h => h.2, fun h => ⟨List.count_pos_iff.mp (Nat.lt_of_lt_of_le Nat.zero_lt_one
    (Nat.le_of_lt h)), h⟩⟩

/-- A submitted attribute id outside the variant-attribute set makes
`clean_attributes` fail with the `ATTRIBUTE_CANNOT_BE_ASSIGNED` error carrying
the whole set difference as params. -/
lemma clean_attributes_error_of_invalid (data : ProductVariantCreateInput)
    (inst : ProductVariant) (p : Product) (hp : data.product = some p)
    (hbad : ∃ a ∈ data.attributes.getD [], a.id ∉ variant_attributes_ids p.product_type) :
    ProductVariantCreate.clean_attributes data inst =
      .error [{ field := none, message := "Given attributes are not a variant attributes.",
                code := .ATTRIBUTE_CANNOT_BE_ASSIGNED,
                params_attributes := invalid_attributes p.product_type data.attributes }] := by
  obtain ⟨a, ha, hna⟩ := hbad
  have hmem : a.id ∈ invalid_attributes p.product_type data.attributes :=
    (mem_invalid_attributes _ _ _).mpr ⟨⟨a, ha, rfl⟩, hna⟩
  have hlen : 0 < (invalid_attributes p.product_type data.attributes).length :=
    List.length_pos.mpr (List.ne_nil_of_mem hmem)
  simp [ProductVariantCreate.clean_attributes, ProductVariantCreate.get_product, hp, hlen]

/-- Pairwise-distinct warehouse ids make the duplicate check pass. -/
lemma check_for_duplicates_ok_of_nodup (stocks_data : List StockInput)
    (h : (stocks_data.map StockInput.warehouse).Nodup) :
    ProductVariantCreate.check_for_duplicates_in_stocks stocks_data = .ok () := by
  have hdup : get_duplicated_values (stocks_data.map StockInput.warehouse) = [] := by
    by_contra hne
    obtain ⟨w, hw⟩ := List.exists_mem_of_ne_nil _ hne
    have := (mem_get_duplicated_values _ w).mp hw
    exact absurd (List.nodup_iff_count_le_one.mp h w) (Nat.not_le_of_lt this)
  simp [ProductVariantCreate.check_for_duplicates_in_stocks, hdup]

/-! ## Claim theorems -/

/-- **C1**: for every input whose attributes list contains at least one
attribute id not in the parent product type's variant-attribute set,
`clean_attributes` fails with a validation error carrying code
`ATTRIBUTE_CANNOT_BE_ASSIGNED` whose params list exactly the set of offending
attribute ids — those submitted but not allowed — and no other ids. -/
theorem clean_attributes_rejects_ids_outside_variant_set
    (data : ProductVariantCreateInput) (inst : ProductVariant) (p : Product)
    (hp : data.product = some p)
    (hbad : ∃ a ∈ data.attributes.getD [], a.id ∉ variant_attributes_ids p.product_type) :
    ∃ it : ErrorItem,
      ProductVariantCreate.clean_attributes data inst = .error [it] ∧
      it.code = .ATTRIBUTE_CANNOT_BE_ASSIGNED ∧
      ∀ x, x ∈ it.params_attributes ↔
        ((∃ a ∈ data.attributes.getD [], a.id = x) ∧
          x ∉ variant_attributes_ids p.product_type) :=
  ⟨_, clean_attributes_error_of_invalid data inst p hp hbad, rfl,
    fun x => mem_invalid_attributes p.product_type data.attributes x⟩

/-- Witness for C1: a concrete input submitting the id "Attribute:2" against a
product type whose variant-attribute set is `{"Attribute:1"}`. -/
theorem clean_attributes_rejects_ids_outside_variant_set_witness :
    ∃ it : ErrorItem,
      ProductVariantCreate.clean_attributes outside_id_input sample_variant_new = .error [it] ∧
      it.code = .ATTRIBUTE_CANNOT_BE_ASSIGNED ∧
      ∀ x, x ∈ it.params_attributes ↔
        ((∃ a ∈ outside_id_input.attributes.getD [], a.id = x) ∧
          x ∉ variant_attributes_ids sample_product.product_type) :=
  clean_attributes_rejects_ids_outside_variant_set outside_id_input sample_variant_new
    sample_product rfl (by decide)

/-- **C2** counterexample: the claim says an update call (the variant already
has an identity) supplying no attributes does not fail with REQUIRED; on the
code it does — `clean_attributes` never reads the instance, so the REQUIRED
check fires for `sample_variant_existing` (pk = 7) exactly as for a create. -/
theorem clean_attributes_required_fires_on_update :
    ProductVariantCreate.clean_attributes base_input sample_variant_existing =
      .error [{ field := some "attributes",
                message := "All required attributes must take a value.",
                code := .REQUIRED, params_attributes := [] }] := by
  rfl

/-- **C2** (amended): for a configurable product type with a value-required
variant attribute, a call supplying no attributes (absent or empty) fails with
REQUIRED under the "attributes" field — regardless of whether the variant has
a prior identity; the create half of the claim holds, the update half does
not. -/
theorem clean_attributes_required_regardless_of_identity
    (data : ProductVariantCreateInput) (inst : ProductVariant) (p : Product)
    (hp : data.product = some p)
    (hconf : p.product_type.has_variants = true)
    (hreq : ∃ a ∈ p.product_type.variant_attributes, a.value_required = true)
    (hempty : data.attributes = none ∨ data.attributes = some []) :
    ProductVariantCreate.clean_attributes data inst =
      .error [{ field := some "attributes",
                message := "All required attributes must take a value.",
                code := .REQUIRED, params_attributes := [] }] := by
  have hinv : invalid_attributes p.product_type data.attributes = [] := by
    rcases hempty with h | h <;> simp [invalid_attributes, attributes_ids, h]
  have hany : p.product_type.variant_attributes.any Attribute.value_required = true := by
    obtain ⟨a, ha, hr⟩ := hreq
    exact List.any_eq_true.mpr ⟨a, ha, hr⟩
  rcases hempty with h | h <;> rw [h] at hinv <;>
    simp [ProductVariantCreate.clean_attributes, ProductVariantCreate.get_product, hp, hinv,
      hconf, hany, h, wrap_field]

/-- Witness for the amended C2: the create call (no prior identity) with no
attributes fails with REQUIRED. -/
theorem clean_attributes_required_regardless_of_identity_witness :
    ProductVariantCreate.clean_attributes base_input sample_variant_new =
      .error [{ field := some "attributes",
                message := "All required attributes must take a value.",
                code := .REQUIRED, params_attributes := [] }] :=
  clean_attributes_required_regardless_of_identity base_input sample_variant_new
    sample_product rfl rfl ⟨sample_attribute, by decide, rfl⟩ (Or.inl rfl)

/-- **C9**: the not-a-variant-attribute check precedes the `has_variants`
branch — for a non-configurable product type, a submitted id outside the
variant-attribute set fails with `ATTRIBUTE_CANNOT_BE_ASSIGNED` (not INVALID),
and an INVALID error can only be raised when every submitted id belongs to the
variant-attribute set. -/
theorem clean_attributes_subset_check_precedes_nonconf
    (data : ProductVariantCreateInput) (inst : ProductVariant) (p : Product)
    (hp : data.product = some p)
    (hnv : p.product_type.has_variants = false) :
    ((∃ a ∈ data.attributes.getD [], a.id ∉ variant_attributes_ids p.product_type) →
      ∃ it : ErrorItem,
        ProductVariantCreate.clean_attributes data inst = .error [it] ∧
        it.code = .ATTRIBUTE_CANNOT_BE_ASSIGNED) ∧
    (∀ e, ProductVariantCreate.clean_attributes data inst = .error e →
      (∃ it ∈ e, it.code = .INVALID) →
      ∀ a ∈ data.attributes.getD [], a.id ∈ variant_attributes_ids p.product_type) := by
  constructor
  · intro hbad
    exact ⟨_, clean_attributes_error_of_invalid data inst p hp hbad, rfl⟩
  · intro e he hinv a ha
    by_contra hno
    rw [clean_attributes_error_of_invalid data inst p hp ⟨a, ha, hno⟩] at he
    obtain ⟨it, hit, hcode⟩ := hinv
    cases Except.error.inj he
    simp only [List.mem_singleton] at hit
    rw [hit] at hcode
    simp at hcode

/-- Witness for C9: the id "Attribute:2" against the non-configurable product
type whose variant-attribute set is `{"Attribute:1"}` draws
`ATTRIBUTE_CANNOT_BE_ASSIGNED`, not the non-configurable INVALID error. -/
theorem clean_attributes_subset_check_precedes_nonconf_witness :
    ∃ it : ErrorItem,
      ProductVariantCreate.clean_attributes nonconf_outside_id_input sample_variant_new =
        .error [it] ∧
      it.code = .ATTRIBUTE_CANNOT_BE_ASSIGNED :=
  (clean_attributes_subset_check_precedes_nonconf nonconf_outside_id_input sample_variant_new
    sample_product_nonconf rfl rfl).1 (by decide)

/-- **C6** counterexample: the claim says any attribute submitted against a
non-configurable product type fails with INVALID; submitting the id
"Attribute:2", which is outside the variant-attribute set, instead fails with
`ATTRIBUTE_CANNOT_BE_ASSIGNED`. -/
theorem clean_attributes_nonconf_outside_id_not_invalid :
    ProductVariantCreate.clean_attributes nonconf_outside_id_input sample_variant_new =
      .error [{ field := none, message := "Given attributes are not a variant attributes.",
                code := .ATTRIBUTE_CANNOT_BE_ASSIGNED,
                params_attributes := ["Attribute:2"] }] := by
  rfl

/-- **C6** (amended): for a non-configurable product type, submitting
attributes whose ids all belong to the variant-attribute set fails with
INVALID and the message "Cannot assign attributes for product type without
variants" (ids outside the set instead draw ATTRIBUTE_CANNOT_BE_ASSIGNED
first); submitting no attributes succeeds. -/
theorem clean_attributes_nonconf_spec
    (data : ProductVariantCreateInput) (inst : ProductVariant) (p : Product)
    (hp : data.product = some p)
    (hnv : p.product_type.has_variants = false) :
    ((∀ a ∈ data.attributes.getD [], a.id ∈ variant_attributes_ids p.product_type) →
      (∃ l, data.attributes = some l ∧ l ≠ []) →
      ProductVariantCreate.clean_attributes data inst =
        .error [{ field := none,
                  message := "Cannot assign attributes for product type without variants",
                  code := .INVALID, params_attributes := [] }]) ∧
    ((data.attributes = none ∨ data.attributes = some []) →
      ProductVariantCreate.clean_attributes data inst = .ok none) := by
  constructor
  · rintro hall ⟨l, hl, hne⟩
    have hinv : invalid_attributes p.product_type data.attributes = [] := by
      rw [List.eq_nil_iff_forall_not_mem]
      intro x hx
      obtain ⟨⟨a, ha, hax⟩, hxno⟩ := (mem_invalid_attributes _ _ _).mp hx
      exact hxno (hax ▸ hall a ha)
    cases l with
    | nil => exact absurd rfl hne
    | cons a rest =>
      rw [hl] at hinv
      simp [ProductVariantCreate.clean_attributes, ProductVariantCreate.get_product, hp, hinv,
        hnv, hl]
  · intro hempty
    have hinv : invalid_attributes p.product_type data.attributes = [] := by
      rcases hempty with h | h <;> simp [invalid_attributes, attributes_ids, h]
    rcases hempty with h | h <;> rw [h] at hinv <;>
      simp [ProductVariantCreate.clean_attributes, ProductVariantCreate.get_product, hp, hinv,
        hnv, h]

/-- Witness for the amended C6: the allowed id "Attribute:1" against the
non-configurable product type fails with the INVALID error. -/
theorem clean_attributes_nonconf_spec_witness :
    ProductVariantCreate.clean_attributes nonconf_allowed_id_input sample_variant_new =
      .error [{ field := none,
                message := "Cannot assign attributes for product type without variants",
                code := .INVALID, params_attributes := [] }] :=
  (clean_attributes_nonconf_spec nonconf_allowed_id_input sample_variant_new
    sample_product_nonconf rfl rfl).1 (by decide)
    ⟨[{ id := "Attribute:1", values := ["red"] }], rfl, by decide⟩

/-- **C5**: a stocks list in which some warehouse id occurs more than once
fails with a "stocks"-scoped UNIQUE error whose message names exactly the
duplicated warehouse ids; a stocks list with pairwise-distinct warehouse ids
passes the check. -/
theorem check_for_duplicates_in_stocks_spec (stocks_data : List StockInput) :
    ((∃ w, 1 < (stocks_data.map StockInput.warehouse).count w) →
      ProductVariantCreate.check_for_duplicates_in_stocks stocks_data =
        .error [{ field := some "stocks",
                  message := "Duplicated warehouse ID: " ++ String.intercalate ", "
                    (get_duplicated_values (stocks_data.map StockInput.warehouse)),
                  code := .UNIQUE, params_attributes := [] }] ∧
      ∀ w, w ∈ get_duplicated_values (stocks_data.map StockInput.warehouse) ↔
        1 < (stocks_data.map StockInput.warehouse).count w) ∧
    ((stocks_data.map StockInput.warehouse).Nodup →
      ProductVariantCreate.check_for_duplicates_in_stocks stocks_data = .ok ()) := by
  constructor
  · rintro ⟨w, hw⟩
    refine ⟨?_, fun w' => mem_get_duplicated_values _ w'⟩
    have hmem : w ∈ get_duplicated_values (stocks_data.map StockInput.warehouse) :=
      (mem_get_duplicated_values _ w).mpr hw
    have hne : get_duplicated_values (stocks_data.map StockInput.warehouse) ≠ [] :=
      List.ne_nil_of_mem hmem
    have hempty : (get_duplicated_values (stocks_data.map StockInput.warehouse)).isEmpty
        = false := by
      rw [List.isEmpty_eq_false]
      exact hne
    simp [ProductVariantCreate.check_for_duplicates_in_stocks, hempty]
  · exact check_for_duplicates_ok_of_nodup stocks_data

/-- Witness for C5: two stock entries for warehouse "W1" fail with UNIQUE and
the message names "W1". -/
theorem check_for_duplicates_in_stocks_spec_witness :
    ProductVariantCreate.check_for_duplicates_in_stocks
        [{ warehouse := "W1", quantity := 5 }, { warehouse := "W1", quantity := 3 }] =
      .error [{ field := some "stocks", message := "Duplicated warehouse ID: W1",
                code := .UNIQUE, params_attributes := [] }] :=
  (((check_for_duplicates_in_stocks_spec
      [{ warehouse := "W1", quantity := 5 }, { warehouse := "W1", quantity := 3 }]).1
    ⟨"W1", by decide⟩).1).trans (congrArg Except.error (by decide))

/-- **C3** counterexample: an input with two violations — a negative weight
and duplicated stock warehouses — yields only the weight error; the stocks
violation (which exists: "W1" is duplicated) is not part of the returned
error, so violations are not aggregated. -/
theorem clean_input_first_violation_only :
    get_duplicated_values ((weight_and_stocks_input.stocks.getD []).map StockInput.warehouse)
      = ["W1"] ∧
    ProductVariantCreate.clean_input 0 weight_and_stocks_input sample_variant_new =
      .error [{ field := some "weight",
                message := "Product variant can't have negative weight.",
                code := .INVALID, params_attributes := [] }] :=
  ⟨by decide, by rfl⟩

/-- **C3** (amended): the clean phase stops at the first failing check rather
than aggregating violations across checks: whenever the weight is present and
negative, `clean_input` returns exactly the weight error, whatever other
violations (such as duplicated stock warehouses) the input contains. -/
theorem clean_input_weight_error_preempts (now : Nat)
    (data : ProductVariantCreateInput) (inst : ProductVariant) (w : Int)
    (hw : data.weight = some w) (hneg : w < 0) :
    ProductVariantCreate.clean_input now data inst =
      .error [{ field := some "weight",
                message := "Product variant can't have negative weight.",
                code := .INVALID, params_attributes := [] }] := by
  simp [ProductVariantCreate.clean_input, cleaner.clean_weight, hw, hneg]

/-- Witness for the amended C3: the concrete input with weight `-5` and
duplicated stocks returns the weight error alone. -/
theorem clean_input_weight_error_preempts_witness :
    ProductVariantCreate.clean_input 0 weight_and_stocks_input sample_variant_existing =
      .error [{ field := some "weight",
                message := "Product variant can't have negative weight.",
                code := .INVALID, params_attributes := [] }] :=
  clean_input_weight_error_preempts 0 weight_and_stocks_input sample_variant_existing
    (-5) rfl (by decide)

/-- **C8** counterexample: the claim says a null product reference fails with
the "product" INVALID error before any other field's validation runs or
raises; with a null product and duplicated stock warehouses the returned
error is the "stocks" UNIQUE error — the stocks check runs and raises
first. -/
theorem clean_input_stocks_error_preempts_null_product :
    ProductVariantCreate.clean_input 0 null_product_dup_stocks_input sample_variant_new =
      .error [{ field := some "stocks", message := "Duplicated warehouse ID: W1",
                code := .UNIQUE, params_attributes := [] }] := by
  rfl

/-- **C8** (amended): a null product reference fails with the "product"
INVALID error at the start of attribute cleaning — before any attribute
validation, but only after the weight, quantity-limit and stock-duplicate
checks have passed; those checks run first and may raise before the product
check. -/
theorem clean_input_null_product_invalid (now : Nat)
    (data : ProductVariantCreateInput) (inst : ProductVariant)
    (hp : data.product = none)
    (hw : data.weight = none)
    (hq : data.quantity_limit_per_customer = none)
    (hs : ((data.stocks.getD []).map StockInput.warehouse).Nodup) :
    ProductVariantCreate.clean_input now data inst =
      .error [{ field := some "product", message := "Product cannot be set empty.",
                code := .INVALID, params_attributes := [] }] := by
  have hstocks : (match data.stocks with
      | some (s :: ss) => ProductVariantCreate.check_for_duplicates_in_stocks (s :: ss)
      | _ => Except.ok ()) = Except.ok () := by
    cases hds : data.stocks with
    | none => rfl
    | some l =>
      cases l with
      | nil => rfl
      | cons s ss =>
        rw [hds] at hs
        exact check_for_duplicates_ok_of_nodup (s :: ss) hs
  simp [ProductVariantCreate.clean_input, cleaner.clean_weight, cleaner.clean_quantity_limit,
    hw, hq, hstocks, ProductVariantCreate.clean_attributes, ProductVariantCreate.get_product, hp]

/-- Witness for the amended C8: a null product with nothing else invalid fails
with the "product" INVALID error. -/
theorem clean_input_null_product_invalid_witness :
    ProductVariantCreate.clean_input 0 null_product_input sample_variant_new =
      .error [{ field := some "product", message := "Product cannot be set empty.",
                code := .INVALID, params_attributes := [] }] :=
  clean_input_null_product_invalid 0 null_product_input sample_variant_new
    rfl rfl rfl (by decide)

/-- `set_track_inventory` never changes the primary key. -/
lemma set_track_inventory_pk (shop_default : Option Bool) (inst : ProductVariant)
    (cleaned_input : CleanedInput) :
    (ProductVariantCreate.set_track_inventory shop_default inst cleaned_input).pk = inst.pk := by
  cases shop_default <;> rfl

/-- `set_track_inventory` never changes the parent product. -/
lemma set_track_inventory_product (shop_default : Option Bool) (inst : ProductVariant)
    (cleaned_input : CleanedInput) :
    (ProductVariantCreate.set_track_inventory shop_default inst cleaned_input).product
      = inst.product := by
  cases shop_default <;> rfl

/-- `AttributeAssignmentMixin.save` only rewrites the attribute links. -/
lemma AttributeAssignmentMixin.save_pk (inst : ProductVariant) (attributes : T_INPUT_MAP) :
    (AttributeAssignmentMixin.save inst attributes).pk = inst.pk := rfl

/-- `AttributeAssignmentMixin.save` leaves the parent product untouched. -/
lemma AttributeAssignmentMixin.save_product (inst : ProductVariant)
    (attributes : T_INPUT_MAP) :
    (AttributeAssignmentMixin.save inst attributes).product = inst.product := rfl

/-- Name generation only rewrites the name. -/
lemma generate_and_set_variant_name_pk (inst : ProductVariant) (sku : Option String) :
    (generate_and_set_variant_name inst sku).pk = inst.pk := rfl

/-- Name generation leaves the parent product untouched. -/
lemma generate_and_set_variant_name_product (inst : ProductVariant) (sku : Option String) :
    (generate_and_set_variant_name inst sku).product = inst.product := rfl

/-- A minimal cleaned input, used by the save-phase witnesses. -/
def base_cleaned_input : CleanedInput :=
  { attributes := none, product := some sample_product, stocks := none, sku := none,
    name := none, track_inventory := none, weight := none, preorder := none,
    quantity_limit_per_customer := none }

/-- The saved variant's primary key: the existing key, or the freshly assigned
one when the instance had none. -/
lemma save_variant_pk (shop_default : Option Bool) (next_pk : Nat)
    (inst : ProductVariant) (cleaned_input : CleanedInput) :
    (ProductVariantCreate.save shop_default next_pk inst cleaned_input).variant.pk
      = some (inst.pk.getD next_pk) := by
  simp only [ProductVariantCreate.save]
  repeat' split
  all_goals
    simp [AttributeAssignmentMixin.save_pk, generate_and_set_variant_name_pk,
      set_track_inventory_pk]

/-- The saved variant's parent default-variant reference: assigned to the
saved variant when it was unset, untouched otherwise. -/
lemma save_variant_default (shop_default : Option Bool) (next_pk : Nat)
    (inst : ProductVariant) (cleaned_input : CleanedInput) :
    (ProductVariantCreate.save shop_default next_pk inst
        cleaned_input).variant.product.default_variant =
      (if inst.product.default_variant.isNone then some (inst.pk.getD next_pk)
       else inst.product.default_variant) := by
  simp only [ProductVariantCreate.save]
  repeat' split
  all_goals
    simp_all [AttributeAssignmentMixin.save_product, generate_and_set_variant_name_product,
      set_track_inventory_product, set_track_inventory_pk]

/-- **C4**: after any successful save, if the parent product had no default
variant before the call its default-variant reference equals the newly saved
variant, and if it already had one the reference is unchanged — the first
variant ever saved becomes the default. -/
theorem save_first_variant_becomes_default (shop_default : Option Bool) (next_pk : Nat)
    (inst : ProductVariant) (cleaned_input : CleanedInput) :
    (inst.product.default_variant = none →
      (ProductVariantCreate.save shop_default next_pk inst
          cleaned_input).variant.product.default_variant =
        (ProductVariantCreate.save shop_default next_pk inst cleaned_input).variant.pk) ∧
    (∀ k, inst.product.default_variant = some k →
      (ProductVariantCreate.save shop_default next_pk inst
          cleaned_input).variant.product.default_variant = some k) := by
  constructor
  · intro h
    rw [save_variant_default, save_variant_pk, h]
    rfl
  · intro k h
    rw [save_variant_default, h]
    rfl

/-- Witness for C4: saving a first variant (product has no default variant)
makes it the default. -/
theorem save_first_variant_becomes_default_witness :
    (ProductVariantCreate.save none 3 sample_variant_new
        base_cleaned_input).variant.product.default_variant =
      (ProductVariantCreate.save none 3 sample_variant_new base_cleaned_input).variant.pk :=
  (save_first_variant_becomes_default none 3 sample_variant_new base_cleaned_input).1 rfl

/-- **C7**: every successful run of `save` emits exactly one domain event —
`product_variant_created` when the variant had no identity before the save and
`product_variant_updated` when it did — chosen by the pk check made before the
variant row is written; no run emits both. -/
theorem save_emits_exactly_one_event (shop_default : Option Bool) (next_pk : Nat)
    (inst : ProductVariant) (cleaned_input : CleanedInput) :
    (ProductVariantCreate.save shop_default next_pk inst cleaned_input).events =
      [if inst.pk.isNone then PluginEvent.product_variant_created
       else PluginEvent.product_variant_updated] ∧
    (ProductVariantCreate.save shop_default next_pk inst cleaned_input).events.length = 1 :=
  ⟨rfl, rfl⟩

/-- **C10**: when the shop-level track-inventory default is null,
`set_track_inventory` leaves the variant entirely unchanged whatever the
input; when it is not null, the only field modified is `track_inventory`,
set to the explicit input value when given and to the shop default
otherwise. -/
theorem set_track_inventory_spec (shop_default : Option Bool)
    (inst : ProductVariant) (cleaned_input : CleanedInput) :
    (ProductVariantCreate.set_track_inventory shop_default inst cleaned_input).pk = inst.pk ∧
    (ProductVariantCreate.set_track_inventory shop_default inst cleaned_input).product
      = inst.product ∧
    (ProductVariantCreate.set_track_inventory shop_default inst cleaned_input).sku
      = inst.sku ∧
    (ProductVariantCreate.set_track_inventory shop_default inst cleaned_input).name
      = inst.name ∧
    (ProductVariantCreate.set_track_inventory shop_default inst cleaned_input).weight
      = inst.weight ∧
    (ProductVariantCreate.set_track_inventory shop_default inst
        cleaned_input).quantity_limit_per_customer = inst.quantity_limit_per_customer ∧
    (ProductVariantCreate.set_track_inventory shop_default inst cleaned_input).attribute_values
      = inst.attribute_values ∧
    (ProductVariantCreate.set_track_inventory shop_default inst cleaned_input).track_inventory
      = (match shop_default with
         | none => inst.track_inventory
         | some d => cleaned_input.track_inventory.getD d) := by
  cases shop_default <;>
    simp [ProductVariantCreate.set_track_inventory, get_track_inventory_by_default]
